import Mathlib

/-!
Shallow embedding of the lease-based job-stage worker in `src/app.py`
(KOSCHEI AI worker): tier routing (`db_get_routing`), generation with a
one-shot fallback (`generate_with_gemini`), response normalization
(`safe_get_text`), the queue-client wrappers (`claim_next_stage`,
`complete_stage`) and the worker loop (`worker_loop`), modelled as a
per-iteration trace function over oracles for the external services.
-/

namespace KoscheiAI

/-- Python `v or d` on an optional string: `None` and the empty string are
falsy and replaced by the default. -/
def pyOrStr (v : Option String) (d : String) : String :=
  match v with
  | none => d
  | some s => if s == "" then d else s

/-- Python truthiness of an optional string (`if stage_id:`): `None` and
`""` are falsy. -/
def pyTruthy : Option String → Bool
  | none => false
  | some s => s != ""

/-- Python `dict.get(k, d)` over an association list with string keys. -/
def dictGetD (m : List (String × String)) (k : String) (d : String) : String :=
  match m.find? (fun p => p.1 == k) with
  | some p => p.2
  | none => d

/-- The static tier-to-model registry `MODELS` of `app.py`. -/
def MODELS : List (String × String) :=
  [("flash", "gemini-1.5-flash"),
   ("pro", "gemini-3.1-pro-preview"),
   ("ultra", "gemini-3.1-pro-preview")]

/-- The agent instruction registry `AGENT_PROMPTS` of `app.py`. -/
def AGENT_PROMPTS : List (String × String) :=
  [("web_developer", "Sen Uzman Web Geliştirici Koschei\x27sin. Modern ve SEO uyumlu kod yazarsın."),
   ("game_developer", "Sen Kıdemli Oyun Geliştirici Koschei\x27sin. Unity ve Unreal Engine uzmanısın."),
   ("logo_designer", "Sen Kreatif Tasarımcı Koschei\x27sin. Marka kimliği ve logo tasarımında uzmansın."),
   ("seo_expert", "Sen SEO ve İçerik Stratejisti Koschei\x27sin. Google sıralama odaklı çalışırsın."),
   ("general", "Sen KOSCHEI AI\x27sın. Türkiye\x27nin en güçlü yapay zeka asistanısın.")]

/-- Default of `WORKER_POLL_SECONDS = int(os.environ.get("WORKER_POLL_SECONDS", "3"))`. -/
def WORKER_POLL_SECONDS_default : Nat := 3

/-- A part of a generation-response candidate: `text` is `some s` when the
part has a `text` attribute (value `s`), `none` when `hasattr(part, "text")`
is false. -/
structure Part where
  text : Option String
deriving Repr, DecidableEq

/-- The `content` object of a candidate: a list of parts. -/
structure Content where
  parts : List Part
deriving Repr, DecidableEq

/-- One candidate of a generation response. -/
structure Candidate where
  content : Content
deriving Repr, DecidableEq

/-- A generation-service response. `wellFormed cs` is a response whose
attribute accesses succeed and whose candidate list is `cs`; `malformed`
is a response on which any attribute access inside `safe_get_text`'s `try`
block raises. -/
inductive Response where
  | wellFormed (candidates : List Candidate)
  | malformed
deriving Repr, DecidableEq

/-- `safe_get_text` of `app.py`: joins the `text` of the first candidate's
parts that have a `text` attribute; returns the fixed sentinel when the
candidate list or the parts list is empty (Python falsiness of the lists);
the catch-all `except` turns any raising access into the fixed error
string. -/
def safe_get_text (response : Response) : String :=
  match response with
  | Response.malformed => "Metin dönüştürme hatası oluştu."
  | Response.wellFormed [] => "Yanıt alınamadı."
  | Response.wellFormed (c :: _) =>
    match c.content.parts with
    | [] => "Yanıt alınamadı."
    | parts => String.join (parts.filterMap Part.text)

/-- Modelled from the spec: the normalization contract of section 4.2, which
demands that an empty-but-well-formed response yield the sentinel as a
success and that a malformed/unparseable response raise a typed error
instead of returning a string. Used only to compare the spec's demand with
the source's `safe_get_text`. -/
def safe_get_text_spec (response : Response) : Except String String :=
  match response with
  | Response.malformed => Except.error "malformed response"
  | Response.wellFormed [] => Except.ok "Yanıt alınamadı."
  | Response.wellFormed (c :: _) =>
    match c.content.parts.filterMap Part.text with
    | [] => Except.ok "Yanıt alınamadı."
    | ts => Except.ok (String.join ts)

/-- A row of the `model_routing` table as selected by `db_get_routing`
(`select("primary_tier,fallback_tier")`), and also the routing dict the
function returns. -/
structure Routing where
  primary_tier : String
  fallback_tier : String
deriving Repr, DecidableEq

/-- Result of the external `model_routing` query for a category: rows, or a
raised exception. -/
inductive RoutingQueryResult where
  | rows (rs : List Routing)
  | fail (msg : String)

/-- Process configuration and external-store behaviour: the environment
flags read at module load (`GEMINI_API_KEY`, the Supabase client,
`WORKER_ENABLED`, `WORKER_POLL_SECONDS`) and the behaviour of the
`model_routing` table query. -/
structure Cfg where
  geminiApiKey : Bool
  supabaseConfigured : Bool
  workerEnabled : Bool
  pollSeconds : Nat
  routingQuery : String → RoutingQueryResult

/-- `db_get_routing` of `app.py`: starts from the default
`{"primary_tier": "flash", "fallback_tier": "flash"}`; returns it when the
Supabase client is absent or the category string is falsy; otherwise
queries the table, and on a raised query or an empty row set keeps the
default, while a first row overwrites both keys (`routing.update(r.data[0])`
with both selected columns present). -/
def db_get_routing (cfg : Cfg) (category : String) : Routing :=
  let routing : Routing := ⟨"flash", "flash"⟩
  if !cfg.supabaseConfigured || category == "" then routing
  else
    match cfg.routingQuery category with
    | RoutingQueryResult.fail _ => routing
    | RoutingQueryResult.rows [] => routing
    | RoutingQueryResult.rows (r :: _) => r

/-- The model object built by `get_model`: resolved model name and system
instruction. -/
structure GenerativeModel where
  model_name : String
  system_instruction : String
deriving Repr, DecidableEq

/-- `get_model` of `app.py`: `MODELS.get(tier, MODELS["flash"])` (so an
unknown tier resolves to the flash model), prefixed with `models/`, and the
agent instruction for the role with the `general` fallback. -/
def get_model (tier : String) (role : String) : GenerativeModel :=
  { model_name := "models/" ++ dictGetD MODELS tier (dictGetD MODELS "flash" ""),
    system_instruction := dictGetD AGENT_PROMPTS role (dictGetD AGENT_PROMPTS "general" "") }

/-- The payload returned by `generate_with_gemini` on success. -/
structure Outcome where
  text : String
  engine : String
  tier : String
  job_type : String
  category : String
deriving Repr, DecidableEq

/-- One observed call to the generation service: the tier it was issued
under, the resolved model name and instruction, and the prompt. -/
structure GenCall where
  tier : String
  modelName : String
  instruction : String
  prompt : String
deriving Repr, DecidableEq

/-- `generate_with_gemini` of `app.py`, with the generation service as an
oracle `gen` indexed by attempt number within this call (0 = primary
attempt, 1 = fallback attempt). Returns the result (`Except.error` models
the raised exception) together with the list of generation calls issued,
in order: raises before any call when `GEMINI_API_KEY` is absent; tries the
primary tier of the routing once; on a raise tries the fallback tier
exactly once more, propagating the fallback's exception if that also
fails. -/
def generate_with_gemini_run (cfg : Cfg) (gen : Nat → Except String Response)
    (category : String) (job_type : String) (prompt : String) :
    Except String Outcome × List GenCall :=
  if !cfg.geminiApiKey then
    (Except.error "GEMINI_API_KEY yok. Worker AI üretemez.", [])
  else
    let routing := db_get_routing cfg category
    let primary := routing.primary_tier
    let fallback := routing.fallback_tier
    let m1 := get_model primary "general"
    let call1 : GenCall := ⟨primary, m1.model_name, m1.system_instruction, prompt⟩
    match gen 0 with
    | Except.ok resp =>
      (Except.ok { text := safe_get_text resp, engine := "gemini", tier := primary,
                   job_type := job_type, category := category }, [call1])
    | Except.error _ =>
      let m2 := get_model fallback "general"
      let call2 : GenCall := ⟨fallback, m2.model_name, m2.system_instruction, prompt⟩
      match gen 1 with
      | Except.ok resp =>
        (Except.ok { text := safe_get_text resp, engine := "gemini", tier := fallback,
                     job_type := job_type, category := category }, [call1, call2])
      | Except.error e2 => (Except.error e2, [call1, call2])

/-- A claimed stage row as returned by the `claim_next_stage` RPC; every
field is optional because the row dict may lack keys or hold `None`. -/
structure Stage where
  stage_id : Option String
  job_type : Option String
  category : Option String
  prompt : Option String
  stage_number : Option Nat
deriving Repr, DecidableEq

/-- The defaulting of lines 226-228 of `app.py`:
`stage.get("job_type") or "general"`, `stage.get("category") or "general"`,
`stage.get("prompt") or ""`, in that order. -/
def stage_params (stage : Stage) : String × String × String :=
  (pyOrStr stage.job_type "general", pyOrStr stage.category "general", pyOrStr stage.prompt "")

/-- `claim_next_stage` of `app.py` with the store RPC result as input:
returns `none` without touching the store when the Supabase client is
absent; propagates a raised RPC; returns the first row when the row set is
non-empty and `none` otherwise. -/
def claim_next_stage (cfg : Cfg) (rpcResult : Except String (List Stage)) :
    Except String (Option Stage) :=
  if !cfg.supabaseConfigured then Except.ok none
  else
    match rpcResult with
    | Except.error e => Except.error e
    | Except.ok [] => Except.ok none
    | Except.ok (s :: _) => Except.ok (some s)

/-- The `p_output` argument of a `complete_stage` call: either the
generation outcome (success path) or the minimal failure payload
`{"engine": "worker", "note": "failed"}` of the exception handler. -/
inductive CompletionOutput where
  | outcome (o : Outcome)
  | failureNote
deriving Repr, DecidableEq

/-- Observable events of one worker-loop iteration: the
`claim_next_stage()` call, a `complete_stage` RPC invocation with its
arguments, a generation-service call, and a sleep of a given number of
seconds. -/
inductive Event where
  | claimCall
  | sleepSec (seconds : Nat)
  | genCall (c : GenCall)
  | completeCall (stage_id : Option String) (output : CompletionOutput) (error : Option String)
deriving Repr, DecidableEq

/-- `complete_stage` of `app.py`: a no-op when the Supabase client is
absent, otherwise one RPC invocation whose outcome is the given oracle
result. Returns the emitted events and the call's result. -/
def complete_stage_run (cfg : Cfg) (rpcResult : Except String Unit)
    (stage_id : Option String) (output : CompletionOutput) (error : Option String) :
    List Event × Except String Unit :=
  if cfg.supabaseConfigured then ([Event.completeCall stage_id output error], rpcResult)
  else ([], Except.ok ())

/-- The `except` block of the worker loop (lines 241-254 of `app.py`):
if the `stage_id` variable is truthy, one failure-reporting
`complete_stage(stage_id, {"engine": "worker", "note": "failed"}, err)`
call whose own exception is caught and only logged (the inner
`try/except`), then `asyncio.sleep(5)`. -/
def exceptBlock (cfg : Cfg) (completeFailRpc : Except String Unit)
    (stage_id : Option String) (err : String) : List Event :=
  (if pyTruthy stage_id then
    (complete_stage_run cfg completeFailRpc stage_id CompletionOutput.failureNote (some err)).1
   else []) ++ [Event.sleepSec 5]

/-- Oracle for the external effects of one worker-loop iteration: the
claim RPC's row set or exception, the generation service's behaviour per
attempt, and the results of the success-path and failure-path
`complete_stage` RPCs. -/
structure IterOracle where
  claimRpc : Except String (List Stage)
  gen : Nat → Except String Response
  completeOkRpc : Except String Unit
  completeFailRpc : Except String Unit

/-- The generation run of one claimed stage, with the defaulted parameters
in the argument order of `generate_with_gemini(category, job_type, prompt)`. -/
def stageGen (cfg : Cfg) (o : IterOracle) (stage : Stage) :
    Except String Outcome × List GenCall :=
  generate_with_gemini_run cfg o.gen (stage_params stage).2.1 (stage_params stage).1
    (stage_params stage).2.2

/-- One iteration of the `while True` body of `worker_loop` (lines 216-254
of `app.py`): the emitted event trace together with the exception captured
by the outer `except` block (`none` when the iteration raised nothing).
`stage_id` starts as `None`; a claim exception reaches the handler with it
still `None`; an empty claim sleeps the poll interval and continues; on a
claimed stage the generation runs on the defaulted parameters, a successful
outcome is completed with `error = none`, and any exception (generation
failure or a raising success-path completion) runs the `except` block. -/
def worker_iter_core (cfg : Cfg) (o : IterOracle) : List Event × Option String :=
  match claim_next_stage cfg o.claimRpc with
  | Except.error e =>
    (Event.claimCall :: exceptBlock cfg o.completeFailRpc none e, some e)
  | Except.ok none =>
    ([Event.claimCall, Event.sleepSec cfg.pollSeconds], none)
  | Except.ok (some stage) =>
    let sid := stage.stage_id
    let gr := stageGen cfg o stage
    let genEvents := gr.2.map Event.genCall
    match gr.1 with
    | Except.error e =>
      (Event.claimCall :: genEvents ++ exceptBlock cfg o.completeFailRpc sid e, some e)
    | Except.ok output =>
      let cr := complete_stage_run cfg o.completeOkRpc sid (CompletionOutput.outcome output) none
      match cr.2 with
      | Except.ok _ => (Event.claimCall :: genEvents ++ cr.1, none)
      | Except.error e =>
        (Event.claimCall :: genEvents ++ cr.1 ++ exceptBlock cfg o.completeFailRpc sid e, some e)

/-- The event trace of one worker-loop iteration. -/
def worker_iter (cfg : Cfg) (o : IterOracle) : List Event :=
  (worker_iter_core cfg o).1

/-- The exception captured by the outer `except` block of one iteration,
`none` when the iteration raised nothing. -/
def iterException (cfg : Cfg) (o : IterOracle) : Option String :=
  (worker_iter_core cfg o).2

/-- The trace of running the loop body for a given finite list of
per-iteration oracles. -/
def worker_steps (cfg : Cfg) (os : List IterOracle) : List Event :=
  match os with
  | [] => []
  | o :: rest => worker_iter cfg o ++ worker_steps cfg rest

/-- `worker_loop` of `app.py` observed for finitely many iterations: the
startup guards return immediately (empty trace) when the worker is
disabled or the Supabase client is absent; otherwise the loop body runs. -/
def worker_run (cfg : Cfg) (os : List IterOracle) : List Event :=
  if cfg.workerEnabled && cfg.supabaseConfigured then worker_steps cfg os else []

/-- The trace of `n` idle polls: a claim call followed by a poll-interval
sleep, `n` times. -/
def idleTrace (n : Nat) (poll : Nat) : List Event :=
  match n with
  | 0 => []
  | Nat.succ m => Event.claimCall :: Event.sleepSec poll :: idleTrace m poll

/-- Recognizes a failure-reporting `complete_stage` call (the minimal
failure payload of the exception handler). -/
def isFailureComplete (ev : Event) : Bool :=
  match ev with
  | Event.completeCall _ CompletionOutput.failureNote _ => true
  | _ => false

/-- Number of `complete_stage` invocations for a given stage id in a
trace. -/
def countCompleteCalls (sid : Option String) (tr : List Event) : Nat :=
  tr.countP (fun ev =>
    match ev with
    | Event.completeCall s _ _ => s == sid
    | _ => false)

/-! ## Concrete fixtures for witnesses and counterexamples -/

/-- A fully configured process whose routing table has no row for any
category. -/
def testCfg : Cfg :=
  { geminiApiKey := true, supabaseConfigured := true, workerEnabled := true,
    pollSeconds := 3, routingQuery := fun _ => RoutingQueryResult.rows [] }

/-- A well-formed response with no candidates. -/
def respEmpty : Response := Response.wellFormed []

/-- A well-formed response whose single part carries the scenario-A text. -/
def bossResp : Response :=
  Response.wellFormed [⟨⟨[⟨some "Boss fight design..."⟩]⟩⟩]

/-- A generation service whose primary attempt raises and whose fallback
attempt succeeds. -/
def genPrimaryFails : Nat → Except String Response
  | 0 => Except.error "primary down"
  | _ => Except.ok respEmpty

/-- A generation service that always succeeds with `bossResp`. -/
def genBoss : Nat → Except String Response := fun _ => Except.ok bossResp

/-! ## Helper lemmas -/

/-- On any lookup failure (no client, falsy category, raised query, empty
row set) `db_get_routing` keeps the hard-coded default. -/
theorem db_get_routing_default (cfg : Cfg) (category : String)
    (h : cfg.supabaseConfigured = false ∨ category = "" ∨
         (∃ msg, cfg.routingQuery category = RoutingQueryResult.fail msg) ∨
         cfg.routingQuery category = RoutingQueryResult.rows []) :
    db_get_routing cfg category = ⟨"flash", "flash"⟩ := by
  unfold db_get_routing
  rcases h with h | h | ⟨msg, h⟩ | h
  · simp [h]
  · simp [h]
  · by_cases hc : (!cfg.supabaseConfigured || category == "") = true
    · simp [hc]
    · simp only [Bool.not_eq_true] at hc
      simp [hc, h]
  · by_cases hc : (!cfg.supabaseConfigured || category == "") = true
    · simp [hc]
    · simp only [Bool.not_eq_true] at hc
      simp [hc, h]

/-- A claim that yields a stage implies the Supabase client was
configured. -/
theorem claim_some_configured (cfg : Cfg) (rpc : Except String (List Stage)) (st : Stage)
    (h : claim_next_stage cfg rpc = Except.ok (some st)) :
    cfg.supabaseConfigured = true := by
  by_cases hc : cfg.supabaseConfigured = true
  · exact hc
  · simp only [Bool.not_eq_true] at hc
    simp [claim_next_stage, hc] at h

/-- Trace shape of an iteration whose claim call raises: no stage was
obtained, so the handler makes no completion call and only sleeps the
5-second backoff. -/
theorem worker_iter_claim_error (cfg : Cfg) (o : IterOracle) (e : String)
    (hc : claim_next_stage cfg o.claimRpc = Except.error e) :
    worker_iter cfg o = [Event.claimCall, Event.sleepSec 5] ∧
    iterException cfg o = some e := by
  simp [worker_iter, iterException, worker_iter_core, hc, exceptBlock, pyTruthy]

/-- Trace shape of an idle iteration: claim returned no stage, the loop
sleeps the configured poll interval. -/
theorem worker_iter_none (cfg : Cfg) (o : IterOracle)
    (hc : claim_next_stage cfg o.claimRpc = Except.ok none) :
    worker_iter cfg o = [Event.claimCall, Event.sleepSec cfg.pollSeconds] ∧
    iterException cfg o = none := by
  simp [worker_iter, iterException, worker_iter_core, hc]

/-- Trace shape of an iteration whose generation (both attempts, or the
eager credential check) raises. -/
theorem worker_iter_gen_error (cfg : Cfg) (o : IterOracle) (st : Stage) (e : String)
    (hc : claim_next_stage cfg o.claimRpc = Except.ok (some st))
    (hg : (stageGen cfg o st).1 = Except.error e) :
    worker_iter cfg o =
      Event.claimCall :: (stageGen cfg o st).2.map Event.genCall ++
        ((if pyTruthy st.stage_id then
            [Event.completeCall st.stage_id CompletionOutput.failureNote (some e)]
          else []) ++ [Event.sleepSec 5]) ∧
    iterException cfg o = some e := by
  have hsb := claim_some_configured cfg o.claimRpc st hc
  simp [worker_iter, iterException, worker_iter_core, hc, hg, exceptBlock,
    complete_stage_run, hsb]

/-- Trace shape of a fully successful iteration: generation succeeded and
the success-path completion did not raise; no sleep follows. -/
theorem worker_iter_success (cfg : Cfg) (o : IterOracle) (st : Stage) (outc : Outcome)
    (hc : claim_next_stage cfg o.claimRpc = Except.ok (some st))
    (hg : (stageGen cfg o st).1 = Except.ok outc)
    (hk : o.completeOkRpc = Except.ok ()) :
    worker_iter cfg o =
      Event.claimCall :: (stageGen cfg o st).2.map Event.genCall ++
        [Event.completeCall st.stage_id (CompletionOutput.outcome outc) none] ∧
    iterException cfg o = none := by
  have hsb := claim_some_configured cfg o.claimRpc st hc
  simp [worker_iter, iterException, worker_iter_core, hc, hg, complete_stage_run, hsb, hk]

/-- Trace shape of an iteration whose success-path completion raises: the
exception handler issues one further, failure-reporting completion for the
same stage. -/
theorem worker_iter_complete_error (cfg : Cfg) (o : IterOracle) (st : Stage) (outc : Outcome)
    (e : String)
    (hc : claim_next_stage cfg o.claimRpc = Except.ok (some st))
    (hg : (stageGen cfg o st).1 = Except.ok outc)
    (hk : o.completeOkRpc = Except.error e) :
    worker_iter cfg o =
      Event.claimCall :: (stageGen cfg o st).2.map Event.genCall ++
        ([Event.completeCall st.stage_id (CompletionOutput.outcome outc) none] ++
         ((if pyTruthy st.stage_id then
             [Event.completeCall st.stage_id CompletionOutput.failureNote (some e)]
           else []) ++ [Event.sleepSec 5])) ∧
    iterException cfg o = some e := by
  have hsb := claim_some_configured cfg o.claimRpc st hc
  simp [worker_iter, iterException, worker_iter_core, hc, hg, exceptBlock,
    complete_stage_run, hsb, hk]

/-- Every iteration's trace begins with the claim call. -/
theorem worker_iter_head (cfg : Cfg) (o : IterOracle) :
    (worker_iter cfg o).head? = some Event.claimCall := by
  rcases hc : claim_next_stage cfg o.claimRpc with e | stOpt
  · simp [(worker_iter_claim_error cfg o e hc).1]
  · rcases stOpt with _ | st
    · simp [(worker_iter_none cfg o hc).1]
    · rcases hg : (stageGen cfg o st).1 with e | outc
      · simp [(worker_iter_gen_error cfg o st e hc hg).1]
      · rcases hk : o.completeOkRpc with e | u
        · simp [(worker_iter_complete_error cfg o st outc e hc hg hk).1]
        · cases u
          simp [(worker_iter_success cfg o st outc hc hg hk).1]

/-! ## C1 -/

/-- C1: if the primary-tier generation attempt raises and the fallback
attempt succeeds, `generate_with_gemini` returns an outcome whose `tier`
field is the routing's fallback tier, and exactly two generation calls are
made, primary then fallback, with no further retries. -/
theorem C1_fallback_tier_two_calls (cfg : Cfg) (gen : Nat → Except String Response)
    (category job_type prompt e : String) (resp : Response)
    (hkey : cfg.geminiApiKey = true)
    (h0 : gen 0 = Except.error e) (h1 : gen 1 = Except.ok resp) :
    (generate_with_gemini_run cfg gen category job_type prompt).1 =
      Except.ok { text := safe_get_text resp, engine := "gemini",
                  tier := (db_get_routing cfg category).fallback_tier,
                  job_type := job_type, category := category } ∧
    (generate_with_gemini_run cfg gen category job_type prompt).2 =
      [{ tier := (db_get_routing cfg category).primary_tier,
         modelName := (get_model (db_get_routing cfg category).primary_tier "general").model_name,
         instruction := (get_model (db_get_routing cfg category).primary_tier "general").system_instruction,
         prompt := prompt },
       { tier := (db_get_routing cfg category).fallback_tier,
         modelName := (get_model (db_get_routing cfg category).fallback_tier "general").model_name,
         instruction := (get_model (db_get_routing cfg category).fallback_tier "general").system_instruction,
         prompt := prompt }] ∧
    (generate_with_gemini_run cfg gen category job_type prompt).2.length = 2 := by
  simp [generate_with_gemini_run, hkey, h0, h1]

/-- Witness for C1 at a concrete configuration: the routing for
`seo_expert` has no row, the primary attempt raises, the fallback attempt
succeeds. -/
theorem C1_fallback_tier_two_calls_witness :
    (generate_with_gemini_run testCfg genPrimaryFails "seo_expert" "general" "p").1 =
      Except.ok { text := safe_get_text respEmpty, engine := "gemini",
                  tier := (db_get_routing testCfg "seo_expert").fallback_tier,
                  job_type := "general", category := "seo_expert" } ∧
    (generate_with_gemini_run testCfg genPrimaryFails "seo_expert" "general" "p").2 =
      [{ tier := (db_get_routing testCfg "seo_expert").primary_tier,
         modelName := (get_model (db_get_routing testCfg "seo_expert").primary_tier "general").model_name,
         instruction := (get_model (db_get_routing testCfg "seo_expert").primary_tier "general").system_instruction,
         prompt := "p" },
       { tier := (db_get_routing testCfg "seo_expert").fallback_tier,
         modelName := (get_model (db_get_routing testCfg "seo_expert").fallback_tier "general").model_name,
         instruction := (get_model (db_get_routing testCfg "seo_expert").fallback_tier "general").system_instruction,
         prompt := "p" }] ∧
    (generate_with_gemini_run testCfg genPrimaryFails "seo_expert" "general" "p").2.length = 2 :=
  C1_fallback_tier_two_calls testCfg genPrimaryFails "seo_expert" "general" "p"
    "primary down" respEmpty rfl rfl rfl

/-! ## C2 -/

/-- C2 counterexample: with a configured store whose routing table has no
row for `game_developer`, a stage with `job_type = "studio_video"` runs at
tier `"flash"` — the cheapest tier — not at the highest tier (`"ultra"`)
nor the mid tier (`"pro"`): no keyword-based classification of `job_type`
exists in the code. -/
theorem C2_keyword_policy_counterexample :
    (generate_with_gemini_run testCfg genBoss "game_developer" "studio_video"
        "design a boss fight").1 =
      Except.ok { text := "Boss fight design...", engine := "gemini", tier := "flash",
                  job_type := "studio_video", category := "game_developer" } ∧
    "flash" ≠ "ultra" ∧ "flash" ≠ "pro" := by
  refine ⟨?_, by decide, by decide⟩
  rfl

/-- C2 amended: there is no keyword-based tier policy; whenever the routing
lookup yields no row (store unconfigured or category absent from the
table), tier selection ignores `job_type` entirely and the generation runs
at the default cheapest tier `"flash"` — in particular a stage with
`job_type = "studio_video"` and a category absent from the routing table
runs at `"flash"`. -/
theorem C2_no_keyword_policy_default_tier (cfg : Cfg) (gen : Nat → Except String Response)
    (category job_type prompt : String) (resp : Response)
    (hkey : cfg.geminiApiKey = true)
    (hnr : cfg.supabaseConfigured = false ∨
           cfg.routingQuery category = RoutingQueryResult.rows [])
    (h0 : gen 0 = Except.ok resp) :
    (generate_with_gemini_run cfg gen category job_type prompt).1 =
      Except.ok { text := safe_get_text resp, engine := "gemini", tier := "flash",
                  job_type := job_type, category := category } := by
  have hdef : db_get_routing cfg category = ⟨"flash", "flash"⟩ := by
    refine db_get_routing_default cfg category ?_
    rcases hnr with h | h
    · exact Or.inl h
    · exact Or.inr (Or.inr (Or.inr h))
  simp [generate_with_gemini_run, hkey, h0, hdef]

/-- Witness for the amended C2 at the scenario-A input. -/
theorem C2_no_keyword_policy_default_tier_witness :
    (generate_with_gemini_run testCfg genBoss "game_developer" "studio_video"
        "design a boss fight").1 =
      Except.ok { text := safe_get_text bossResp, engine := "gemini", tier := "flash",
                  job_type := "studio_video", category := "game_developer" } :=
  C2_no_keyword_policy_default_tier testCfg genBoss "game_developer" "studio_video"
    "design a boss fight" bossResp rfl (Or.inr rfl) rfl

/-! ## C3 -/

/-- C3 counterexample: (i) on a malformed response the source's
`safe_get_text` returns the fixed error string as an ordinary `String`
result, whereas the spec's contract (`safe_get_text_spec`, modelled from
the spec's words) demands a raised typed error — the code never raises;
(ii) for a well-formed response whose single candidate has one part
without a `text` attribute — so with no textual parts — `safe_get_text`
returns the empty string, not the fixed sentinel. -/
theorem C3_malformed_counterexample :
    safe_get_text Response.malformed = "Metin dönüştürme hatası oluştu." ∧
    safe_get_text_spec Response.malformed = Except.error "malformed response" ∧
    safe_get_text (Response.wellFormed [⟨⟨[⟨none⟩]⟩⟩]) = "" ∧
    "" ≠ "Yanıt alınamadı." :=
  ⟨rfl, rfl, rfl, by decide⟩

/-- C3 amended: `safe_get_text` returns the fixed sentinel string as a
successful result when the response has no candidates or the first
candidate's parts list is empty; when parts are present but none carries a
`text` attribute it returns the empty string — a successful result, but
not the sentinel; and for a malformed/unparseable response it returns a
fixed error string — still an ordinary string result, never a raised
error. -/
theorem C3_sentinel_and_error_string (c : Candidate) (rest : List Candidate) :
    safe_get_text (Response.wellFormed []) = "Yanıt alınamadı." ∧
    (c.content.parts = [] →
      safe_get_text (Response.wellFormed (c :: rest)) = "Yanıt alınamadı.") ∧
    (c.content.parts ≠ [] → (∀ p ∈ c.content.parts, p.text = none) →
      safe_get_text (Response.wellFormed (c :: rest)) = "") ∧
    safe_get_text Response.malformed = "Metin dönüştürme hatası oluştu." := by
  refine ⟨rfl, ?_, ?_, rfl⟩
  · intro hp
    simp [safe_get_text, hp]
  · intro hne hall
    rcases hps : c.content.parts with _ | ⟨p, ps⟩
    · exact absurd hps hne
    · have hfm : List.filterMap Part.text (p :: ps) = [] := by
        rw [List.filterMap_eq_nil_iff]
        intro a ha
        exact hall a (hps ▸ ha)
      simp only [safe_get_text, hps, hfm]
      rfl

/-- Witness for the amended C3: the no-candidates response, an
empty-parts candidate, a candidate whose only part lacks a `text`
attribute, and the malformed response. -/
theorem C3_sentinel_and_error_string_witness :
    safe_get_text (Response.wellFormed []) = "Yanıt alınamadı." ∧
    safe_get_text (Response.wellFormed [⟨⟨[]⟩⟩]) = "Yanıt alınamadı." ∧
    safe_get_text (Response.wellFormed [⟨⟨[⟨none⟩]⟩⟩]) = "" ∧
    safe_get_text Response.malformed = "Metin dönüştürme hatası oluştu." :=
  ⟨(C3_sentinel_and_error_string ⟨⟨[]⟩⟩ []).1,
   (C3_sentinel_and_error_string ⟨⟨[]⟩⟩ []).2.1 rfl,
   (C3_sentinel_and_error_string ⟨⟨[⟨none⟩]⟩⟩ []).2.2.1 (by decide) (by decide),
   (C3_sentinel_and_error_string ⟨⟨[]⟩⟩ []).2.2.2⟩

/-! ## C7 -/

/-- C7: on every routing-lookup failure (store unconfigured, empty
category, raised query, or no matching row) `db_get_routing` returns the
hard-coded default pair (`"flash"` is the cheapest tier), and the failure
never aborts the stage: with the API key present the generation call is
still issued. -/
theorem C7_routing_failure_default (cfg : Cfg) (category : String)
    (h : cfg.supabaseConfigured = false ∨ category = "" ∨
         (∃ msg, cfg.routingQuery category = RoutingQueryResult.fail msg) ∨
         cfg.routingQuery category = RoutingQueryResult.rows []) :
    db_get_routing cfg category = ⟨"flash", "flash"⟩ ∧
    (∀ gen job_type prompt, cfg.geminiApiKey = true →
      (generate_with_gemini_run cfg gen category job_type prompt).2 ≠ []) := by
  refine ⟨db_get_routing_default cfg category h, ?_⟩
  intro gen job_type prompt hkey
  rcases hg0 : gen 0 with e | r
  · rcases hg1 : gen 1 with e2 | r2 <;>
      simp [generate_with_gemini_run, hkey, hg0, hg1]
  · simp [generate_with_gemini_run, hkey, hg0]

/-- Witness for C7: empty category on the concrete configuration. -/
theorem C7_routing_failure_default_witness :
    db_get_routing testCfg "" = ⟨"flash", "flash"⟩ ∧
    (∀ gen job_type prompt, testCfg.geminiApiKey = true →
      (generate_with_gemini_run testCfg gen "" job_type prompt).2 ≠ []) :=
  C7_routing_failure_default testCfg "" (Or.inr (Or.inl rfl))

/-! ## Further fixtures -/

/-- The scenario-B style stage: complete row with truthy stage id. -/
def stS : Stage := ⟨some "s1", some "general", some "seo_expert", some "p", some 1⟩

/-- A stage whose `job_type`, `category` and `prompt` are missing or
empty. -/
def stMissing : Stage := ⟨some "s9", none, some "", none, none⟩

/-- A generation service that always raises. -/
def genDown : Nat → Except String Response := fun _ => Except.error "gen down"

/-- Iteration oracle: stage claimed, generation succeeds, but the
success-path `complete_stage` RPC raises. -/
def oSuccessCompleteFails : IterOracle :=
  ⟨Except.ok [stS], genBoss, Except.error "complete boom", Except.ok ()⟩

/-- Iteration oracle: stage claimed, both generation attempts raise, and
even the failure-reporting `complete_stage` RPC raises. -/
def oBothGenFail : IterOracle :=
  ⟨Except.ok [stS], genDown, Except.ok (), Except.error "store down"⟩

/-- Iteration oracle: the claim RPC itself raises. -/
def oClaimFail : IterOracle :=
  ⟨Except.error "db down", genBoss, Except.ok (), Except.ok ()⟩

/-- Iteration oracle: the queue is empty. -/
def oIdle : IterOracle := ⟨Except.ok [], genBoss, Except.ok (), Except.ok ()⟩

/-- Iteration oracle: claim yields the field-poor stage, generation
succeeds. -/
def oMissing : IterOracle := ⟨Except.ok [stMissing], genBoss, Except.ok (), Except.ok ()⟩

/-- Iteration oracle: claim yields the complete stage and everything
succeeds. -/
def oSuccess : IterOracle := ⟨Except.ok [stS], genBoss, Except.ok (), Except.ok ()⟩

/-- The configuration with a poll interval configured above the fixed
5-second error backoff. -/
def cfgPoll10 : Cfg := { testCfg with pollSeconds := 10 }

/-! ## More helper lemmas -/

/-- Generation-call events are never failure-reporting completions. -/
theorem countP_failure_map_gen (l : List GenCall) :
    (l.map Event.genCall).countP isFailureComplete = 0 := by
  induction l with
  | nil => rfl
  | cons c rest ih => simp [List.countP_cons, isFailureComplete, ih]

/-- Composed form of `countP_failure_map_gen` (the shape `simp` leaves
after `List.countP_map`). -/
theorem countP_failure_comp_gen (l : List GenCall) :
    l.countP (isFailureComplete ∘ Event.genCall) = 0 := by
  induction l with
  | nil => rfl
  | cons c rest ih => simp [List.countP_cons, Function.comp, isFailureComplete, ih]

/-- No completion call occurs in an idle trace. -/
theorem idleTrace_no_complete (n poll : Nat) (sid : Option String) (out : CompletionOutput)
    (err : Option String) : Event.completeCall sid out err ∉ idleTrace n poll := by
  induction n with
  | zero => simp [idleTrace]
  | succ m ih => simp [idleTrace, ih]

/-- An idle trace of `n` polls contains exactly `n` poll-interval sleeps. -/
theorem idleTrace_count_sleeps (n poll : Nat) :
    (idleTrace n poll).countP (fun ev => ev == Event.sleepSec poll) = n := by
  induction n with
  | zero => rfl
  | succ m ih => simp [idleTrace, List.countP_cons, ih]

/-- With the API key present, the generation run always issues the
primary-tier call first. -/
theorem gen_calls_head (cfg : Cfg) (gen : Nat → Except String Response)
    (category job_type prompt : String) (hkey : cfg.geminiApiKey = true) :
    ∃ rest, (generate_with_gemini_run cfg gen category job_type prompt).2 =
      { tier := (db_get_routing cfg category).primary_tier,
        modelName := (get_model (db_get_routing cfg category).primary_tier "general").model_name,
        instruction :=
          (get_model (db_get_routing cfg category).primary_tier "general").system_instruction,
        prompt := prompt } :: rest := by
  rcases h0 : gen 0 with e | r
  · refine ⟨[GenCall.mk (db_get_routing cfg category).fallback_tier
      (get_model (db_get_routing cfg category).fallback_tier "general").model_name
      (get_model (db_get_routing cfg category).fallback_tier "general").system_instruction
      prompt], ?_⟩
    rcases h1 : gen 1 with e1 | r1 <;> simp [generate_with_gemini_run, hkey, h0, h1]
  · exact ⟨[], by simp [generate_with_gemini_run, hkey, h0]⟩

/-- Every generation call of a claimed stage's run appears in the
iteration trace, whatever the iteration's outcome. -/
theorem gen_events_in_trace (cfg : Cfg) (o : IterOracle) (st : Stage) (c : GenCall)
    (hclaim : claim_next_stage cfg o.claimRpc = Except.ok (some st))
    (hmem : c ∈ (stageGen cfg o st).2) :
    Event.genCall c ∈ worker_iter cfg o := by
  have hmm : Event.genCall c ∈ (stageGen cfg o st).2.map Event.genCall :=
    List.mem_map_of_mem Event.genCall hmem
  rcases hg : (stageGen cfg o st).1 with eg | outc
  · rw [(worker_iter_gen_error cfg o st eg hclaim hg).1]
    exact List.mem_cons_of_mem _ (List.mem_append_left _ hmm)
  · rcases hk : o.completeOkRpc with ek | u
    · rw [(worker_iter_complete_error cfg o st outc ek hclaim hg hk).1]
      exact List.mem_cons_of_mem _ (List.mem_append_left _ hmm)
    · cases u
      rw [(worker_iter_success cfg o st outc hclaim hg hk).1]
      exact List.mem_cons_of_mem _ (List.mem_append_left _ hmm)

/-! ## C4 -/

/-- C4: in every iteration where an exception occurs after a (truthy)
stage_id was obtained — including both generation attempts failing — the
handler invokes `complete_stage` for that stage_id with a non-none error;
when no stage was obtained (empty or raising claim) no completion call is
made; the loop body is total, the run continues with the next iteration,
and every iteration begins by polling again. -/
theorem C4_exception_reported (cfg : Cfg) (o : IterOracle) (st : Stage) (s e : String)
    (hclaim : claim_next_stage cfg o.claimRpc = Except.ok (some st))
    (hsid : st.stage_id = some s) (hs : s ≠ "")
    (hexc : iterException cfg o = some e) :
    Event.completeCall (some s) CompletionOutput.failureNote (some e) ∈ worker_iter cfg o ∧
    (∀ o2 : IterOracle,
      (claim_next_stage cfg o2.claimRpc = Except.ok none ∨
        ∃ e2, claim_next_stage cfg o2.claimRpc = Except.error e2) →
      ∀ sid out err, Event.completeCall sid out err ∉ worker_iter cfg o2) ∧
    (∀ os, worker_steps cfg (o :: os) = worker_iter cfg o ++ worker_steps cfg os) ∧
    (∀ o2 : IterOracle, (worker_iter cfg o2).head? = some Event.claimCall) := by
  have ht : pyTruthy (some s) = true := by simp [pyTruthy, hs]
  refine ⟨?_, ?_, fun os => rfl, fun o2 => worker_iter_head cfg o2⟩
  · rcases hg : (stageGen cfg o st).1 with eg | outc
    · have hsh := worker_iter_gen_error cfg o st eg hclaim hg
      have heg : e = eg := Option.some.inj (hexc.symm.trans hsh.2)
      subst heg
      rw [hsh.1, hsid]
      simp [ht]
    · rcases hk : o.completeOkRpc with ek | u
      · have hsh := worker_iter_complete_error cfg o st outc ek hclaim hg hk
        have hek : e = ek := Option.some.inj (hexc.symm.trans hsh.2)
        subst hek
        rw [hsh.1, hsid]
        simp [ht]
      · cases u
        have hsh := worker_iter_success cfg o st outc hclaim hg hk
        rw [hsh.2] at hexc
        exact absurd hexc (by simp)
  · intro o2 h2 sid out err
    rcases h2 with h2 | ⟨e2, h2⟩
    · rw [(worker_iter_none cfg o2 h2).1]
      simp
    · rw [(worker_iter_claim_error cfg o2 e2 h2).1]
      simp

/-- Witness for C4: both generation attempts raise on a claimed stage. -/
theorem C4_exception_reported_witness :
    Event.completeCall (some "s1") CompletionOutput.failureNote (some "gen down")
      ∈ worker_iter testCfg oBothGenFail ∧
    (∀ o2 : IterOracle,
      (claim_next_stage testCfg o2.claimRpc = Except.ok none ∨
        ∃ e2, claim_next_stage testCfg o2.claimRpc = Except.error e2) →
      ∀ sid out err, Event.completeCall sid out err ∉ worker_iter testCfg o2) ∧
    (∀ os, worker_steps testCfg (oBothGenFail :: os) =
      worker_iter testCfg oBothGenFail ++ worker_steps testCfg os) ∧
    (∀ o2 : IterOracle, (worker_iter testCfg o2).head? = some Event.claimCall) :=
  C4_exception_reported testCfg oBothGenFail stS "s1" "gen down" rfl rfl (by decide) rfl

/-! ## C5 -/

/-- C5 counterexample: the stage is claimed, generation succeeds, the
terminal (success-path) `complete_stage` call itself fails — and
`complete_stage` IS called again for the same stage within the same
iteration: the trace holds two completion calls for stage `"s1"`. -/
theorem C5_second_complete_counterexample :
    worker_iter testCfg oSuccessCompleteFails =
      [Event.claimCall,
       Event.genCall ⟨"flash", "models/gemini-1.5-flash",
         "Sen KOSCHEI AI\x27sın. Türkiye\x27nin en güçlü yapay zeka asistanısın.", "p"⟩,
       Event.completeCall (some "s1")
         (CompletionOutput.outcome
           ⟨"Boss fight design...", "gemini", "flash", "general", "seo_expert"⟩) none,
       Event.completeCall (some "s1") CompletionOutput.failureNote (some "complete boom"),
       Event.sleepSec 5] ∧
    countCompleteCalls (some "s1") (worker_iter testCfg oSuccessCompleteFails) = 2 ∧
    iterException testCfg oSuccessCompleteFails = some "complete boom" :=
  ⟨rfl, rfl, rfl⟩

/-- C5 amended: the failure-reporting `complete_stage` call of the
exception handler is issued exactly once and is followed only by the
backoff sleep — in particular, when that call itself raises, its exception
is swallowed and `complete_stage` is not called again in the iteration.
However, a failing success-path `complete_stage` call does trigger that
one additional failure-reporting call for the same stage. -/
theorem C5_failure_report_once (cfg : Cfg) (o : IterOracle) (st : Stage) (s e : String)
    (hclaim : claim_next_stage cfg o.claimRpc = Except.ok (some st))
    (hsid : st.stage_id = some s) (hs : s ≠ "")
    (hexc : iterException cfg o = some e) :
    ∃ pre, worker_iter cfg o =
        pre ++ [Event.completeCall (some s) CompletionOutput.failureNote (some e),
                Event.sleepSec 5] ∧
      pre.countP isFailureComplete = 0 ∧
      (worker_iter cfg o).countP isFailureComplete = 1 := by
  have ht : pyTruthy (some s) = true := by simp [pyTruthy, hs]
  rcases hg : (stageGen cfg o st).1 with eg | outc
  · have hsh := worker_iter_gen_error cfg o st eg hclaim hg
    have heg : e = eg := Option.some.inj (hexc.symm.trans hsh.2)
    subst heg
    refine ⟨Event.claimCall :: (stageGen cfg o st).2.map Event.genCall, ?_, ?_, ?_⟩
    · rw [hsh.1, hsid]; simp [ht]
    · simp [List.countP_cons, countP_failure_map_gen, countP_failure_comp_gen,
        isFailureComplete]
    · rw [hsh.1, hsid]
      simp [ht, List.countP_cons, List.countP_append, countP_failure_map_gen,
        countP_failure_comp_gen, isFailureComplete]
  · rcases hk : o.completeOkRpc with ek | u
    · have hsh := worker_iter_complete_error cfg o st outc ek hclaim hg hk
      have hek : e = ek := Option.some.inj (hexc.symm.trans hsh.2)
      subst hek
      refine ⟨Event.claimCall :: ((stageGen cfg o st).2.map Event.genCall ++
        [Event.completeCall st.stage_id (CompletionOutput.outcome outc) none]), ?_, ?_, ?_⟩
      · rw [hsh.1, hsid]; simp [ht]
      · simp [List.countP_cons, List.countP_append, countP_failure_map_gen,
          countP_failure_comp_gen, isFailureComplete]
      · rw [hsh.1, hsid]
        simp [ht, List.countP_cons, List.countP_append, countP_failure_map_gen,
          countP_failure_comp_gen, isFailureComplete]
    · cases u
      have hsh := worker_iter_success cfg o st outc hclaim hg hk
      rw [hsh.2] at hexc
      exact absurd hexc (by simp)

/-- Witness for the amended C5: both generation attempts fail and the
failure-reporting `complete_stage` RPC itself raises; the report is still
issued exactly once. -/
theorem C5_failure_report_once_witness :
    ∃ pre, worker_iter testCfg oBothGenFail =
        pre ++ [Event.completeCall (some "s1") CompletionOutput.failureNote (some "gen down"),
                Event.sleepSec 5] ∧
      pre.countP isFailureComplete = 0 ∧
      (worker_iter testCfg oBothGenFail).countP isFailureComplete = 1 :=
  C5_failure_report_once testCfg oBothGenFail stS "s1" "gen down" rfl rfl (by decide) rfl

/-! ## C6 -/

/-- C6 counterexample: with `WORKER_POLL_SECONDS` configured to 10, an
iteration whose claim raises still sleeps the fixed 5-second error
backoff, which is NOT longer than the configured poll interval. -/
theorem C6_backoff_counterexample :
    worker_iter cfgPoll10 oClaimFail = [Event.claimCall, Event.sleepSec 5] ∧
    iterException cfgPoll10 oClaimFail = some "db down" ∧
    cfgPoll10.pollSeconds = 10 ∧ ¬ (5 > cfgPoll10.pollSeconds) :=
  ⟨rfl, rfl, rfl, by decide⟩

/-- C6 amended: after handling an exception the loop always sleeps a fixed
5-second backoff before resuming; 5 seconds is longer than the DEFAULT
poll interval (3 seconds) but not necessarily longer than a configured
one. -/
theorem C6_backoff_five_fixed (cfg : Cfg) (o : IterOracle) (e : String)
    (hexc : iterException cfg o = some e) :
    (∃ pre, worker_iter cfg o = pre ++ [Event.sleepSec 5]) ∧
    5 > WORKER_POLL_SECONDS_default := by
  refine ⟨?_, by decide⟩
  rcases hc : claim_next_stage cfg o.claimRpc with e2 | stOpt
  · exact ⟨[Event.claimCall], by simp [(worker_iter_claim_error cfg o e2 hc).1]⟩
  · rcases stOpt with _ | st
    · rw [(worker_iter_none cfg o hc).2] at hexc
      exact absurd hexc (by simp)
    · rcases hg : (stageGen cfg o st).1 with eg | outc
      · have hsh := worker_iter_gen_error cfg o st eg hc hg
        refine ⟨Event.claimCall :: ((stageGen cfg o st).2.map Event.genCall ++
          (if pyTruthy st.stage_id then
            [Event.completeCall st.stage_id CompletionOutput.failureNote (some eg)]
           else [])), ?_⟩
        rw [hsh.1]
        simp
      · rcases hk : o.completeOkRpc with ek | u
        · have hsh := worker_iter_complete_error cfg o st outc ek hc hg hk
          refine ⟨Event.claimCall :: ((stageGen cfg o st).2.map Event.genCall ++
            ([Event.completeCall st.stage_id (CompletionOutput.outcome outc) none] ++
             (if pyTruthy st.stage_id then
               [Event.completeCall st.stage_id CompletionOutput.failureNote (some ek)]
              else []))), ?_⟩
          rw [hsh.1]
          simp
        · cases u
          rw [(worker_iter_success cfg o st outc hc hg hk).2] at hexc
          exact absurd hexc (by simp)

/-- Witness for the amended C6: the claim RPC raises. -/
theorem C6_backoff_five_fixed_witness :
    (∃ pre, worker_iter testCfg oClaimFail = pre ++ [Event.sleepSec 5]) ∧
    5 > WORKER_POLL_SECONDS_default :=
  C6_backoff_five_fixed testCfg oClaimFail "db down" rfl

/-! ## C8 -/

/-- C8: every `complete_stage` invocation of an iteration carries exactly
the stage_id of the stage this worker obtained from a successful
`claim_next_stage` in that iteration: the core never completes a stage it
did not itself claim. -/
theorem C8_complete_only_claimed (cfg : Cfg) (o : IterOracle) (sid : Option String)
    (out : CompletionOutput) (err : Option String)
    (h : Event.completeCall sid out err ∈ worker_iter cfg o) :
    ∃ st, claim_next_stage cfg o.claimRpc = Except.ok (some st) ∧ sid = st.stage_id := by
  rcases hc : claim_next_stage cfg o.claimRpc with e | stOpt
  · rw [(worker_iter_claim_error cfg o e hc).1] at h
    simp at h
  · rcases stOpt with _ | st
    · rw [(worker_iter_none cfg o hc).1] at h
      simp at h
    · refine ⟨st, rfl, ?_⟩
      rcases hg : (stageGen cfg o st).1 with eg | outc
      · rw [(worker_iter_gen_error cfg o st eg hc hg).1] at h
        by_cases ht : pyTruthy st.stage_id = true
        · simp [ht] at h
          exact h.1
        · simp [Bool.not_eq_true] at ht
          simp [ht] at h
      · rcases hk : o.completeOkRpc with ek | u
        · rw [(worker_iter_complete_error cfg o st outc ek hc hg hk).1] at h
          by_cases ht : pyTruthy st.stage_id = true
          · simp [ht] at h
            rcases h with h | h
            · exact h.1
            · exact h.1
          · simp [Bool.not_eq_true] at ht
            simp [ht] at h
            exact h.1
        · cases u
          rw [(worker_iter_success cfg o st outc hc hg hk).1] at h
          simp at h
          exact h.1

/-- Witness for C8: the completion observed in a fully successful
iteration carries the claimed stage's id. -/
theorem C8_complete_only_claimed_witness :
    ∃ st, claim_next_stage testCfg oSuccess.claimRpc = Except.ok (some st) ∧
      (some "s1" : Option String) = st.stage_id :=
  C8_complete_only_claimed testCfg oSuccess (some "s1")
    (CompletionOutput.outcome
      ⟨"Boss fight design...", "gemini", "flash", "general", "seo_expert"⟩) none
    (by decide)

/-! ## C9 -/

/-- C9: a run in which every claim returns no stage makes no completion
call and sleeps the configured poll interval after each claim: `n` empty
polls yield exactly `n` poll-interval sleeps, interleaved claim-sleep. -/
theorem C9_idle_no_completes (cfg : Cfg) (os : List IterOracle)
    (hen : cfg.workerEnabled = true) (hsb : cfg.supabaseConfigured = true)
    (hempty : ∀ o ∈ os, o.claimRpc = Except.ok []) :
    worker_run cfg os = idleTrace os.length cfg.pollSeconds ∧
    (∀ sid out err, Event.completeCall sid out err ∉ worker_run cfg os) ∧
    (worker_run cfg os).countP (fun ev => ev == Event.sleepSec cfg.pollSeconds) = os.length := by
  have key : ∀ (l : List IterOracle), (∀ o ∈ l, o.claimRpc = Except.ok []) →
      worker_steps cfg l = idleTrace l.length cfg.pollSeconds := by
    intro l
    induction l with
    | nil => intro _; rfl
    | cons o rest ih =>
      intro hl
      have h1 : claim_next_stage cfg o.claimRpc = Except.ok none := by
        simp [claim_next_stage, hsb, hl o (List.mem_cons_self o rest)]
      calc worker_steps cfg (o :: rest) = worker_iter cfg o ++ worker_steps cfg rest := rfl
        _ = idleTrace (o :: rest).length cfg.pollSeconds := by
          rw [(worker_iter_none cfg o h1).1,
            ih (fun o2 hm => hl o2 (List.mem_cons_of_mem o hm))]
          simp [idleTrace]
  have hrun : worker_run cfg os = worker_steps cfg os := by simp [worker_run, hen, hsb]
  refine ⟨by rw [hrun, key os hempty], ?_, ?_⟩
  · intro sid out err
    rw [hrun, key os hempty]
    exact idleTrace_no_complete _ _ _ _ _
  · rw [hrun, key os hempty]
    exact idleTrace_count_sleeps _ _

/-- Witness for C9: three consecutive empty polls. -/
theorem C9_idle_no_completes_witness :
    worker_run testCfg [oIdle, oIdle, oIdle] = idleTrace 3 testCfg.pollSeconds ∧
    (∀ sid out err, Event.completeCall sid out err ∉ worker_run testCfg [oIdle, oIdle, oIdle]) ∧
    (worker_run testCfg [oIdle, oIdle, oIdle]).countP
      (fun ev => ev == Event.sleepSec testCfg.pollSeconds) = 3 :=
  C9_idle_no_completes testCfg [oIdle, oIdle, oIdle] rfl rfl
    (by
      intro o h
      simp only [List.mem_cons, List.not_mem_nil, or_false] at h
      rcases h with h | h | h <;> subst h <;> rfl)

/-! ## C10 -/

/-- C10: for a claimed stage whose `job_type`, `category` and `prompt` are
each missing or null/empty, the loop substitutes the defaults `"general"`,
`"general"` and `""` before execution, and execution proceeds: the primary
generation call is issued with the empty prompt under the routing for
category `"general"`. -/
theorem C10_missing_fields_default (cfg : Cfg) (o : IterOracle) (st : Stage)
    (hclaim : claim_next_stage cfg o.claimRpc = Except.ok (some st))
    (hj : st.job_type = none ∨ st.job_type = some "")
    (hcat : st.category = none ∨ st.category = some "")
    (hp : st.prompt = none ∨ st.prompt = some "")
    (hkey : cfg.geminiApiKey = true) :
    stage_params st = ("general", "general", "") ∧
    Event.genCall
      { tier := (db_get_routing cfg "general").primary_tier,
        modelName := (get_model (db_get_routing cfg "general").primary_tier "general").model_name,
        instruction :=
          (get_model (db_get_routing cfg "general").primary_tier "general").system_instruction,
        prompt := "" } ∈ worker_iter cfg o := by
  have hparams : stage_params st = ("general", "general", "") := by
    rcases hj with hj | hj <;> rcases hcat with hcat | hcat <;> rcases hp with hp | hp <;>
      simp [stage_params, pyOrStr, hj, hcat, hp]
  refine ⟨hparams, ?_⟩
  have hstg : stageGen cfg o st = generate_with_gemini_run cfg o.gen "general" "general" "" := by
    unfold stageGen
    rw [hparams]
  obtain ⟨rest, hr⟩ := gen_calls_head cfg o.gen "general" "general" "" hkey
  refine gen_events_in_trace cfg o st _ hclaim ?_
  rw [hstg, hr]
  exact List.mem_cons_self _ _

/-- Witness for C10: the field-poor stage runs with the defaults. -/
theorem C10_missing_fields_default_witness :
    stage_params stMissing = ("general", "general", "") ∧
    Event.genCall
      { tier := (db_get_routing testCfg "general").primary_tier,
        modelName :=
          (get_model (db_get_routing testCfg "general").primary_tier "general").model_name,
        instruction :=
          (get_model (db_get_routing testCfg "general").primary_tier "general").system_instruction,
        prompt := "" } ∈ worker_iter testCfg oMissing :=
  C10_missing_fields_default testCfg oMissing stMissing rfl (Or.inl rfl) (Or.inr rfl)
    (Or.inl rfl) rfl

end KoscheiAI
